import Mathlib

/-!
Shallow embedding of the Vulkan-Rust graphics-context bring-up and
per-window renderer registry (src/app/engine/mod.rs,
src/app/engine/renderer/mod.rs, src/app/engine/renderer/context/mod.rs).

Driver handles (entry, instance, device, messenger, queue) are opaque
`Nat` values with `0` playing the role of the null handle.  Machine
bitmasks (queue flags, severities, message types) are `Nat` bitmasks.
The compile-time constant `VALIDATION_ENABLED` (`cfg!(debug_assertions)`)
is modelled as an explicit `validation_enabled : Bool` parameter.
External collaborators (the windowing system, the Vulkan driver) are
modelled as oracles: a `Driver` record of outcomes, and per-call
`Except`-valued arguments for window and renderer creation.
-/

namespace VulkanRust

/-- Queue capability bit `vk::QueueFlags::GRAPHICS`. -/
def GRAPHICS : Nat := 1

/-- Queue capability bit `vk::QueueFlags::COMPUTE`. -/
def COMPUTE : Nat := 2

/-- Queue capability bit `vk::QueueFlags::TRANSFER`. -/
def TRANSFER : Nat := 4

/-- Bitmask containment test, embedding `flags.contains(mask)`:
`(flags & mask) == mask`. -/
def containsFlag (flags mask : Nat) : Bool := flags.land mask == mask

/-- One entry of `get_physical_device_queue_family_properties`. -/
structure QueueFamilyProperties where
  queue_flags : Nat
deriving DecidableEq

/-- One enumerated physical device, together with the data the instance
can query about it (its name, from `get_physical_device_properties`, and
its queue families). -/
structure PhysicalDevice where
  device_name : String
  queue_families : List QueueFamilyProperties
deriving DecidableEq

/-- Null physical-device handle (`vk::PhysicalDevice::null()`): queries
against it report nothing. -/
def PhysicalDevice.null : PhysicalDevice :=
  { device_name := "", queue_families := [] }

/-- The created Vulkan instance, modelled by what the code observes
through it: the list of enumerable physical devices. -/
structure VkInstance where
  physical_devices : List PhysicalDevice
deriving DecidableEq

/-- Embeds `instance.enumerate_physical_devices()`. -/
def VkInstance.enumerate_physical_devices (inst : VkInstance) : List PhysicalDevice :=
  inst.physical_devices

/-- Embeds `instance.get_physical_device_queue_family_properties(pd)`. -/
def VkInstance.get_physical_device_queue_family_properties
    (_inst : VkInstance) (physical_device : PhysicalDevice) :
    List QueueFamilyProperties :=
  physical_device.queue_families

/-- The `AppData` struct: messenger handle, selected physical device,
graphics queue handle. -/
structure AppData where
  messenger : Nat
  physical_device : PhysicalDevice
  graphics_queue : Nat
deriving DecidableEq

/-- Initial `AppData` built at the top of `Context::create`: all
handles null. -/
def AppData.init : AppData :=
  { messenger := 0, physical_device := PhysicalDevice.null, graphics_queue := 0 }

/-- Rendering of `SuitabilityError(what)` through its `thiserror`
format string `"Missing {0}."` into the anyhow error message. -/
def SuitabilityError (what : String) : String :=
  "Missing " ++ what ++ "."

/-- Embeds `Iterator::position`: index of the first element satisfying
the predicate. -/
def position (p : α → Bool) : List α → Option Nat
  | [] => none
  | a :: as => if p a then some 0 else (position p as).map (· + 1)

/-- The `QueueFamilyIndices` struct. -/
structure QueueFamilyIndices where
  graphics : Nat
deriving DecidableEq

/-- Embeds `QueueFamilyIndices::get`: position of the first queue family
whose flags contain `GRAPHICS`, else a `SuitabilityError`. -/
def QueueFamilyIndices.get (inst : VkInstance) (_data : AppData)
    (physical_device : PhysicalDevice) : Except String QueueFamilyIndices :=
  let properties := inst.get_physical_device_queue_family_properties physical_device
  match position (fun p => containsFlag p.queue_flags GRAPHICS) properties with
  | some graphics => Except.ok { graphics }
  | none => Except.error (SuitabilityError "required queue families")

/-- Embeds `Context::check_physical_device`: runs `QueueFamilyIndices::get`
and discards the indices. -/
def Context.check_physical_device (inst : VkInstance) (data : AppData)
    (physical_device : PhysicalDevice) : Except String Unit :=
  match QueueFamilyIndices.get inst data physical_device with
  | Except.ok _ => Except.ok ()
  | Except.error e => Except.error e

/-- Specification-side predicate: the device exposes at least one
graphics-capable queue family. -/
def suitable (physical_device : PhysicalDevice) : Bool :=
  physical_device.queue_families.any (fun p => containsFlag p.queue_flags GRAPHICS)

/-- Log records emitted during device selection. -/
inductive LogEvent where
  | warnSkip (device_name : String) (reason : String)
  | infoSelected (device_name : String)
deriving DecidableEq

/-- Loop body of `Context::pick_physical_device`: walk the enumerated
devices; on a failing suitability check emit the skip warning and
continue; on the first success emit the selection message, store the
device in `data` and stop. -/
def Context.pickLoop (inst : VkInstance) (data : AppData) :
    List PhysicalDevice → List LogEvent × Except String AppData
  | [] => ([], Except.error "Failed to find suitable physical device.")
  | physical_device :: rest =>
    match Context.check_physical_device inst data physical_device with
    | Except.error e =>
      let (log, r) := Context.pickLoop inst data rest
      (LogEvent.warnSkip physical_device.device_name e :: log, r)
    | Except.ok _ =>
      ([LogEvent.infoSelected physical_device.device_name],
       Except.ok { data with physical_device := physical_device })

/-- Embeds `Context::pick_physical_device`: returns the emitted log (in
emission order) and either the updated `AppData` or the
no-suitable-device error. -/
def Context.pick_physical_device (inst : VkInstance) (data : AppData) :
    List LogEvent × Except String AppData :=
  Context.pickLoop inst data inst.enumerate_physical_devices

/-- The four Vulkan debug-message severities; the driver invokes the
callback with exactly one severity bit set. -/
inductive Severity where
  | verbose
  | info
  | warning
  | error
deriving DecidableEq

/-- Numeric value of each severity bit
(`vk::DebugUtilsMessageSeverityFlagsEXT`). -/
def Severity.bits : Severity → Nat
  | Severity.verbose => 1
  | Severity.info => 16
  | Severity.warning => 256
  | Severity.error => 4096

def SEVERITY_INFO : Nat := 16
def SEVERITY_WARNING : Nat := 256
def SEVERITY_ERROR : Nat := 4096

/-- Host log levels of the tracing facade used by the callback. -/
inductive LogLevel where
  | error
  | warn
  | debug
  | trace
deriving DecidableEq

/-- One emitted log record: level, the message-type bitmask and the
message text (the callback formats the record as `({:?}) {}`). -/
structure LogRecord where
  level : LogLevel
  message_type : Nat
  message : String
deriving DecidableEq

/-- The `vk::FALSE` value the callback returns. -/
def VK_FALSE : Nat := 0

/-- Embeds `Context::debug_callback`: classify the severity by the
numeric comparisons of the source, log the type bitmask and message at
the resulting level, and return `vk::FALSE`. -/
def Context.debug_callback (severity : Severity) (type_ : Nat)
    (message : String) : LogRecord × Nat :=
  let record : LogRecord :=
    if severity.bits ≥ SEVERITY_ERROR then
      { level := LogLevel.error, message_type := type_, message := message }
    else if severity.bits ≥ SEVERITY_WARNING then
      { level := LogLevel.warn, message_type := type_, message := message }
    else if severity.bits ≥ SEVERITY_INFO then
      { level := LogLevel.debug, message_type := type_, message := message }
    else
      { level := LogLevel.trace, message_type := type_, message := message }
  (record, VK_FALSE)

/-- The `Context` struct: entry handle, instance, `AppData`, device
handle. -/
structure Context where
  entry : Nat
  inst : VkInstance
  data : AppData
  device : Nat
deriving DecidableEq

/-- Driver-side destruction calls, in the order `Context::destroy`
issues them. -/
inductive DestroyAction where
  | destroy_debug_utils_messenger
  | destroy_instance
  | destroy_device
deriving DecidableEq

/-- Embeds `Context::destroy`: the exact sequence of driver destruction
calls the source issues — the messenger when validation is enabled, then
`destroy_instance`, then `destroy_device`. -/
def Context.destroy (validation_enabled : Bool) (_self : Context) :
    List DestroyAction :=
  (if validation_enabled then [DestroyAction.destroy_debug_utils_messenger] else [])
    ++ [DestroyAction.destroy_instance, DestroyAction.destroy_device]

/-- Oracle describing how the external driver responds during one run of
`Context::create`. -/
structure Driver where
  library_loads : Bool
  entry_ok : Bool
  available_layers : List String
  instance_create_ok : Bool
  messenger_create_ok : Bool
  physical_devices : List PhysicalDevice
  device_create_ok : Bool
deriving DecidableEq

/-- The required validation layer name. -/
def VALIDATION_LAYER : String := "VK_LAYER_KHRONOS_validation"

/-- Counters of successful create and destroy driver calls observed
during a run (the mock-driver balance check of the spec). -/
structure ResourceTrace where
  instance_creates : Nat
  instance_destroys : Nat
  messenger_creates : Nat
  messenger_destroys : Nat
deriving DecidableEq

/-- Trace with no driver calls yet. -/
def ResourceTrace.zero : ResourceTrace :=
  { instance_creates := 0, instance_destroys := 0,
    messenger_creates := 0, messenger_destroys := 0 }

/-- Embeds `Context::create_instance`: layer check (fails when
validation is enabled and the layer is absent), instance creation, and —
when validation is enabled — messenger creation.  Every failure exit
propagates with `?`; no destruction call is made on any path, which the
trace records. -/
def Context.create_instance (validation_enabled : Bool) (driver : Driver)
    (data : AppData) : ResourceTrace × Except String (VkInstance × AppData) :=
  if validation_enabled && !(driver.available_layers.contains VALIDATION_LAYER) then
    (ResourceTrace.zero, Except.error "Validation layer requested but not supported.")
  else if !driver.instance_create_ok then
    (ResourceTrace.zero, Except.error "InstanceCreationError")
  else
    let t := { ResourceTrace.zero with instance_creates := 1 }
    let inst : VkInstance := { physical_devices := driver.physical_devices }
    if validation_enabled then
      if driver.messenger_create_ok then
        ({ t with messenger_creates := 1 },
         Except.ok (inst, { data with messenger := 1 }))
      else
        (t, Except.error "MessengerCreationError")
    else
      (t, Except.ok (inst, data))

/-- Embeds `Context::create_logical_device`: re-runs
`QueueFamilyIndices::get` on the selected device, then asks the driver
for the logical device and fetches the graphics queue handle. -/
def Context.create_logical_device (_validation_enabled : Bool) (driver : Driver)
    (inst : VkInstance) (data : AppData) : Except String (Nat × AppData) :=
  match QueueFamilyIndices.get inst data data.physical_device with
  | Except.error e => Except.error e
  | Except.ok _indices =>
    if driver.device_create_ok then
      Except.ok (1, { data with graphics_queue := 1 })
    else
      Except.error "DeviceCreationError"

/-- Embeds `Context::create`: loader, entry, `create_instance`,
`pick_physical_device`, `create_logical_device`, each failure
propagating with `?`.  The source contains no cleanup call on any error
path, so the trace of an aborted run is exactly the trace accumulated up
to the failing step. -/
def Context.create (validation_enabled : Bool) (driver : Driver) :
    ResourceTrace × Except String Context :=
  if !driver.library_loads then
    (ResourceTrace.zero, Except.error "DriverLoadError")
  else if !driver.entry_ok then
    (ResourceTrace.zero, Except.error "EntryError")
  else
    match Context.create_instance validation_enabled driver AppData.init with
    | (t, Except.error e) => (t, Except.error e)
    | (t, Except.ok (inst, data1)) =>
      match (Context.pick_physical_device inst data1).2 with
      | Except.error e => (t, Except.error e)
      | Except.ok data2 =>
        match Context.create_logical_device validation_enabled driver inst data2 with
        | Except.error e => (t, Except.error e)
        | Except.ok (device, data3) =>
          (t, Except.ok { entry := 1, inst := inst, data := data3, device := device })

/-- The `Renderer` struct wrapping one `Context`. -/
structure Renderer where
  context : Context
deriving DecidableEq

/-- Embeds `Renderer::new`: runs `Context::create` and wraps the result,
propagating the error with `?`. -/
def Renderer.new (validation_enabled : Bool) (driver : Driver) :
    Except String Renderer :=
  match (Context.create validation_enabled driver).2 with
  | Except.error e => Except.error e
  | Except.ok context => Except.ok { context }

/-- Window identities (`winit::window::WindowId`): opaque, used only as
map keys. -/
abbrev WindowId := Nat

/-- A created OS window, identified by its id. -/
structure WinitWindow where
  id : WindowId
deriving DecidableEq

/-- Embeds `HashMap::insert`: the key maps to the new value afterwards;
any previous binding of the key is gone. -/
def mapInsert (m : List (WindowId × α)) (k : WindowId) (v : α) :
    List (WindowId × α) :=
  (k, v) :: m.filter (fun p => !(p.1 == k))

/-- Embeds `HashMap::remove` (result map only): all bindings of the key
are gone. -/
def mapRemove (m : List (WindowId × α)) (k : WindowId) :
    List (WindowId × α) :=
  m.filter (fun p => !(p.1 == k))

/-- Key list of a map. -/
def mapKeys (m : List (WindowId × α)) : List WindowId :=
  m.map Prod.fst

/-- The `Engine` struct: renderer map, window map, primary window id. -/
structure Engine where
  renderers : List (WindowId × Renderer)
  windows : List (WindowId × WinitWindow)
  primary_window_id : WindowId
deriving DecidableEq

/-- Decidable key-set equality of the two registry maps. -/
def keySetEqL (m1 : List (WindowId × α)) (m2 : List (WindowId × β)) : Bool :=
  (mapKeys m1).all (fun k => (mapKeys m2).contains k) &&
    (mapKeys m2).all (fun k => (mapKeys m1).contains k)

/-- The registry invariant: window map and renderer map have the same
key set. -/
def Engine.keySetEq (e : Engine) : Bool :=
  keySetEqL e.windows e.renderers

/-- Outcome of `Engine::new`.  The source unwraps the renderer-creation
result, so a context-creation failure panics instead of returning an
error; the embedding keeps the three outcomes apart. -/
inductive NewResult where
  | ok (e : Engine)
  | err (msg : String)
  | panicked (msg : String)
deriving DecidableEq

/-- Embeds `Engine::new`: create the primary window (`?` on failure),
seed the window map with it, then build the renderer map by mapping over
the window map with `Renderer::new(window.clone()).unwrap()` — a
renderer-creation failure is a panic, not a returned error. -/
def Engine.new (window_result : Except String WinitWindow)
    (renderer_result : WinitWindow → Except String Renderer) : NewResult :=
  match window_result with
  | Except.error msg => NewResult.err msg
  | Except.ok primary_window =>
    let primary_window_id := primary_window.id
    let windows := [(primary_window_id, primary_window)]
    match renderer_result primary_window with
    | Except.error msg => NewResult.panicked msg
    | Except.ok renderer =>
      NewResult.ok
        { renderers := [(primary_window_id, renderer)],
          windows := windows,
          primary_window_id := primary_window_id }

/-- Window events the engine handles. -/
inductive WinEvent where
  | close_requested
  | other
deriving DecidableEq

/-- Embeds `Engine::window_event`: on `CloseRequested` for the primary
window, request event-loop exit (returned `Bool`) and change nothing;
for any other id remove the entry from both maps; all other events are
ignored. -/
def Engine.window_event (e : Engine) (window_id : WindowId)
    (event : WinEvent) : Engine × Bool :=
  match event with
  | WinEvent.close_requested =>
    if window_id == e.primary_window_id then
      (e, true)
    else
      ({ e with windows := mapRemove e.windows window_id,
                renderers := mapRemove e.renderers window_id }, false)
  | WinEvent.other => (e, false)

/-- Embeds `Engine::create_window`: create the window (`?` on failure),
insert it into the window map, then create the renderer (`?` on failure
— the window entry stays), then insert the renderer and return the id. -/
def Engine.create_window (e : Engine)
    (window_result : Except String WinitWindow)
    (renderer_result : WinitWindow → Except String Renderer) :
    Engine × Except String WindowId :=
  match window_result with
  | Except.error err => (e, Except.error err)
  | Except.ok window =>
    let e1 := { e with windows := mapInsert e.windows window.id window }
    match renderer_result window with
    | Except.error err => (e1, Except.error err)
    | Except.ok renderer =>
      ({ e1 with renderers := mapInsert e1.renderers window.id renderer },
       Except.ok window.id)

/-! Helper lemmas about `position`. -/

theorem position_eq_none_iff (p : α → Bool) (l : List α) :
    position p l = none ↔ ∀ x ∈ l, p x = false := by
  induction l with
  | nil => simp [position]
  | cons a as ih =>
    cases h : p a with
    | true => simp [position, h]
    | false => simp [position, h, Option.map_eq_none', ih]

theorem position_take_spec (p : α → Bool) :
    ∀ (l : List α) (i : Nat), position p l = some i →
      (∀ x ∈ l.take i, p x = false) ∧ ∃ x, l[i]? = some x ∧ p x = true := by
  intro l
  induction l with
  | nil => intro i h; simp [position] at h
  | cons a as ih =>
    intro i h
    cases hp : p a with
    | true =>
      rw [position, if_pos hp] at h
      obtain rfl : (0 : Nat) = i := Option.some_injective _ h
      exact ⟨by simp, a, by simp, hp⟩
    | false =>
      rw [position, if_neg (by simp [hp])] at h
      obtain ⟨j, hj, rfl⟩ := Option.map_eq_some'.mp h
      obtain ⟨htake, x, hx, hpx⟩ := ih j hj
      refine ⟨?_, x, by simpa using hx, hpx⟩
      intro y hy
      rcases (by simpa using hy : y = a ∨ y ∈ as.take j) with rfl | hy'
      · exact hp
      · exact htake y hy'

theorem position_get_spec (p : α → Bool) :
    ∀ (l : List α) (i : Nat), position p l = some i →
      ∃ hlt : i < l.length, p (l.get ⟨i, hlt⟩) = true := by
  intro l
  induction l with
  | nil => intro i h; simp [position] at h
  | cons a as ih =>
    intro i h
    cases hp : p a with
    | true =>
      rw [position, if_pos hp] at h
      obtain rfl : (0 : Nat) = i := Option.some_injective _ h
      exact ⟨Nat.succ_pos _, hp⟩
    | false =>
      rw [position, if_neg (by simp [hp])] at h
      obtain ⟨j, hj, rfl⟩ := Option.map_eq_some'.mp h
      obtain ⟨hlt, hpg⟩ := ih j hj
      exact ⟨Nat.succ_lt_succ hlt, hpg⟩

/-! Helper lemmas about queue-family lookup and device selection. -/

theorem get_eq_ok_position (inst : VkInstance) (data : AppData)
    (pd : PhysicalDevice) (qfi : QueueFamilyIndices)
    (h : QueueFamilyIndices.get inst data pd = Except.ok qfi) :
    position (fun p => containsFlag p.queue_flags GRAPHICS) pd.queue_families
      = some qfi.graphics := by
  simp only [QueueFamilyIndices.get,
    VkInstance.get_physical_device_queue_family_properties] at h
  cases hpos : position (fun p => containsFlag p.queue_flags GRAPHICS) pd.queue_families with
  | none =>
    rw [hpos] at h
    exact absurd h (by simp)
  | some i =>
    rw [hpos] at h
    simp only [Except.ok.injEq] at h
    rw [← h]

theorem get_eq_error_iff (inst : VkInstance) (data : AppData) (pd : PhysicalDevice) :
    QueueFamilyIndices.get inst data pd
        = Except.error (SuitabilityError "required queue families") ↔
      ∀ q ∈ pd.queue_families, containsFlag q.queue_flags GRAPHICS = false := by
  constructor
  · intro h
    cases hpos : position (fun p => containsFlag p.queue_flags GRAPHICS) pd.queue_families with
    | none =>
      intro q hq
      simpa using (position_eq_none_iff _ _).mp hpos q hq
    | some i =>
      simp only [QueueFamilyIndices.get,
        VkInstance.get_physical_device_queue_family_properties, hpos] at h
      exact absurd h (by simp)
  · intro hall
    have hpos : position (fun p => containsFlag p.queue_flags GRAPHICS) pd.queue_families = none :=
      (position_eq_none_iff _ _).mpr (by intro x hx; simpa using hall x hx)
    simp [QueueFamilyIndices.get,
      VkInstance.get_physical_device_queue_family_properties, hpos]

theorem check_physical_device_eq (inst : VkInstance) (data : AppData)
    (pd : PhysicalDevice) :
    Context.check_physical_device inst data pd =
      if suitable pd then Except.ok ()
      else Except.error (SuitabilityError "required queue families") := by
  cases hpos : position (fun p => containsFlag p.queue_flags GRAPHICS) pd.queue_families with
  | none =>
    have hs : suitable pd = false := by
      have hall := (position_eq_none_iff _ _).mp hpos
      simp only [suitable, List.any_eq_false]
      intro x hx
      simp [hall x hx]
    simp [Context.check_physical_device, QueueFamilyIndices.get,
      VkInstance.get_physical_device_queue_family_properties, hpos, hs]
  | some i =>
    have hs : suitable pd = true := by
      cases h : suitable pd with
      | true => rfl
      | false =>
        exfalso
        have hall : ∀ x ∈ pd.queue_families, containsFlag x.queue_flags GRAPHICS = false := by
          simp only [suitable, List.any_eq_false] at h
          intro x hx
          simpa using h x hx
        rw [(position_eq_none_iff _ _).mpr hall] at hpos
        exact absurd hpos (by simp)
    simp [Context.check_physical_device, QueueFamilyIndices.get,
      VkInstance.get_physical_device_queue_family_properties, hpos, hs]

theorem pickLoop_snd_eq_find (inst : VkInstance) (data : AppData)
    (devs : List PhysicalDevice) :
    (Context.pickLoop inst data devs).2 =
      match devs.find? suitable with
      | some pd => Except.ok { data with physical_device := pd }
      | none => Except.error "Failed to find suitable physical device." := by
  induction devs with
  | nil => rfl
  | cons pd rest ih =>
    rw [Context.pickLoop, check_physical_device_eq]
    cases hs : suitable pd with
    | true => simp [hs]
    | false => simp [hs, ih]

/-! Helper lemmas about the registry maps. -/

theorem mem_mapKeys_filter_ne (m : List (WindowId × α)) (k a : WindowId) :
    a ∈ mapKeys (m.filter (fun p => !(p.1 == k))) ↔ a ∈ mapKeys m ∧ a ≠ k := by
  simp only [mapKeys, List.mem_map, List.mem_filter, Bool.not_eq_true',
    beq_eq_false_iff_ne]
  constructor
  · rintro ⟨p, ⟨hp, hne⟩, rfl⟩
    exact ⟨⟨p, hp, rfl⟩, hne⟩
  · rintro ⟨⟨p, hp, rfl⟩, hne⟩
    exact ⟨p, ⟨hp, hne⟩, rfl⟩

theorem mem_mapKeys_mapRemove (m : List (WindowId × α)) (k a : WindowId) :
    a ∈ mapKeys (mapRemove m k) ↔ a ∈ mapKeys m ∧ a ≠ k :=
  mem_mapKeys_filter_ne m k a

theorem mem_mapKeys_mapInsert (m : List (WindowId × α)) (k a : WindowId) (v : α) :
    a ∈ mapKeys (mapInsert m k v) ↔ a = k ∨ a ∈ mapKeys m := by
  simp only [mapInsert, mapKeys, List.map_cons, List.mem_cons]
  rw [show (List.map Prod.fst (m.filter (fun p => !(p.1 == k))))
        = mapKeys (m.filter (fun p => !(p.1 == k))) from rfl]
  constructor
  · rintro (rfl | h)
    · exact Or.inl rfl
    · exact Or.inr ((mem_mapKeys_filter_ne m k a).mp h).1
  · rintro (rfl | h)
    · exact Or.inl rfl
    · by_cases hak : a = k
      · exact Or.inl hak
      · exact Or.inr ((mem_mapKeys_filter_ne m k a).mpr ⟨h, hak⟩)

theorem mapRemove_eq_self (m : List (WindowId × α)) (k : WindowId)
    (h : k ∉ mapKeys m) : mapRemove m k = m := by
  induction m with
  | nil => rfl
  | cons p rest ih =>
    simp only [mapKeys, List.map_cons, List.mem_cons] at h
    push_neg at h
    obtain ⟨h1, h2⟩ := h
    rw [mapRemove, List.filter_cons_of_pos (by simp [Ne.symm h1])]
    rw [show rest.filter (fun p => !(p.1 == k)) = mapRemove rest k from rfl]
    rw [ih (by simpa [mapKeys] using h2)]

theorem keySetEqL_iff (m1 : List (WindowId × α)) (m2 : List (WindowId × β)) :
    keySetEqL m1 m2 = true ↔ ∀ k, k ∈ mapKeys m1 ↔ k ∈ mapKeys m2 := by
  simp only [keySetEqL, Bool.and_eq_true, List.all_eq_true]
  constructor
  · rintro ⟨h1, h2⟩ k
    constructor
    · intro hk
      have := h1 k hk
      simpa [List.contains_iff_exists_mem_beq, beq_iff_eq] using this
    · intro hk
      have := h2 k hk
      simpa [List.contains_iff_exists_mem_beq, beq_iff_eq] using this
  · intro h
    constructor
    · intro k hk
      simp only [List.contains_iff_exists_mem_beq, beq_iff_eq]
      exact ⟨k, (h k).mp hk, rfl⟩
    · intro k hk
      simp only [List.contains_iff_exists_mem_beq, beq_iff_eq]
      exact ⟨k, (h k).mpr hk, rfl⟩

/-! Helper lemmas: the registry operations preserve the key-set
invariant on their successful paths. -/

theorem new_ok_keySetEq (wr : Except String WinitWindow)
    (rr : WinitWindow → Except String Renderer) (e : Engine)
    (h : Engine.new wr rr = NewResult.ok e) : e.keySetEq = true := by
  cases wr with
  | error msg => simp [Engine.new] at h
  | ok w =>
    cases hr : rr w with
    | error msg => simp [Engine.new, hr] at h
    | ok r =>
      simp only [Engine.new, hr] at h
      injection h with h'
      subst h'
      rw [Engine.keySetEq, keySetEqL_iff]
      intro k
      simp [mapKeys]

theorem window_event_keySetEq (e : Engine) (wid : WindowId) (ev : WinEvent)
    (h : e.keySetEq = true) :
    (Engine.window_event e wid ev).1.keySetEq = true := by
  cases ev with
  | other => simpa [Engine.window_event] using h
  | close_requested =>
    rw [Engine.window_event]
    by_cases hp : (wid == e.primary_window_id) = true
    · simpa [hp] using h
    · rw [if_neg hp]
      rw [Engine.keySetEq, keySetEqL_iff] at h ⊢
      intro k
      simp only [mem_mapKeys_mapRemove]
      constructor
      · rintro ⟨hk, hne⟩
        exact ⟨(h k).mp hk, hne⟩
      · rintro ⟨hk, hne⟩
        exact ⟨(h k).mpr hk, hne⟩

theorem create_window_ok_keySetEq (e : Engine) (w : WinitWindow)
    (rr : WinitWindow → Except String Renderer) (r : Renderer)
    (h : e.keySetEq = true) (hr : rr w = Except.ok r) :
    (Engine.create_window e (Except.ok w) rr).1.keySetEq = true := by
  simp only [Engine.create_window, hr]
  rw [Engine.keySetEq, keySetEqL_iff] at h ⊢
  intro k
  simp only [mem_mapKeys_mapInsert]
  constructor
  · rintro (rfl | hk)
    · exact Or.inl rfl
    · exact Or.inr ((h k).mp hk)
  · rintro (rfl | hk)
    · exact Or.inl rfl
    · exact Or.inr ((h k).mpr hk)

theorem create_window_window_fail_keySetEq (e : Engine) (msg : String)
    (rr : WinitWindow → Except String Renderer) (h : e.keySetEq = true) :
    (Engine.create_window e (Except.error msg) rr).1.keySetEq = true := by
  simpa [Engine.create_window] using h

/-! Concrete fixtures used by the claim theorems and witnesses. -/

/-- Device of the spec's queue-family example: families
`[transfer, graphics|transfer, compute]`. -/
def pdEx7 : PhysicalDevice :=
  { device_name := "dev",
    queue_families := [⟨TRANSFER⟩, ⟨GRAPHICS.lor TRANSFER⟩, ⟨COMPUTE⟩] }

def instEx7 : VkInstance := { physical_devices := [pdEx7] }

/-- Suitable single-family graphics device. -/
def gpuEx : PhysicalDevice := { device_name := "gpu0", queue_families := [⟨GRAPHICS⟩] }

/-- Driver run in which everything succeeds up to logical-device
creation, which fails. -/
def driverDeviceFail : Driver :=
  { library_loads := true, entry_ok := true,
    available_layers := [VALIDATION_LAYER],
    instance_create_ok := true, messenger_create_ok := true,
    physical_devices := [gpuEx], device_create_ok := false }

/-- Fully constructed context fixture. -/
def ctxEx : Context :=
  { entry := 1, inst := { physical_devices := [gpuEx] },
    data := { messenger := 1, physical_device := gpuEx, graphics_queue := 1 },
    device := 1 }

/-- Candidate list of the spec's first-fit example: five devices,
suitable exactly at 1-indexed positions 2 and 4. -/
def d1 : PhysicalDevice := { device_name := "d1", queue_families := [⟨TRANSFER⟩] }

def d2 : PhysicalDevice :=
  { device_name := "d2", queue_families := [⟨TRANSFER⟩, ⟨GRAPHICS⟩] }

def d3 : PhysicalDevice := { device_name := "d3", queue_families := [⟨COMPUTE⟩] }

def d4 : PhysicalDevice := { device_name := "d4", queue_families := [⟨GRAPHICS⟩] }

def d5 : PhysicalDevice := { device_name := "d5", queue_families := [] }

def instEx6 : VkInstance := { physical_devices := [d1, d2, d3, d4, d5] }

def instAllFail : VkInstance := { physical_devices := [d1, d3, d5] }

def rendererEx : Renderer := { context := ctxEx }

/-- Registry holding only its primary window (id 0) and that window's
renderer. -/
def enginePrimary : Engine :=
  { renderers := [(0, rendererEx)],
    windows := [(0, { id := 0 })],
    primary_window_id := 0 }

/-! Claim theorems. -/

/-- Claim C1 (code behaviour at the failing input): when
`create_logical_device` fails after the instance and the debug messenger
were created, `Context::create` propagates the error without issuing a
single destroy call — one instance and one messenger were created and
zero of each destroyed, so the create/destroy counts do not balance. -/
theorem C1_device_failure_leaks_instance :
    (Context.create true driverDeviceFail).2 = Except.error "DeviceCreationError" ∧
    (Context.create true driverDeviceFail).1 =
      { instance_creates := 1, instance_destroys := 0,
        messenger_creates := 1, messenger_destroys := 0 } ∧
    (Context.create true driverDeviceFail).1.instance_creates ≠
      (Context.create true driverDeviceFail).1.instance_destroys ∧
    (Context.create true driverDeviceFail).1.messenger_creates ≠
      (Context.create true driverDeviceFail).1.messenger_destroys := by
  refine ⟨rfl, rfl, ?_, ?_⟩ <;> decide

/-- Claim C2 (code behaviour): `Context::destroy` issues the messenger
destruction iff validation is enabled, but then destroys the instance
BEFORE the logical device — not the claimed messenger → device →
instance order. -/
theorem C2_destroy_order_instance_before_device :
    Context.destroy true ctxEx =
      [DestroyAction.destroy_debug_utils_messenger, DestroyAction.destroy_instance,
       DestroyAction.destroy_device] ∧
    Context.destroy false ctxEx =
      [DestroyAction.destroy_instance, DestroyAction.destroy_device] ∧
    Context.destroy true ctxEx ≠
      [DestroyAction.destroy_debug_utils_messenger, DestroyAction.destroy_device,
       DestroyAction.destroy_instance] := by
  exact ⟨rfl, rfl, by decide⟩

/-- Claim C3 (code behaviour at the failing input): when renderer
creation fails inside `Engine::create_window`, the already-inserted
window entry is left behind — the window map holds keys `[1, 0]` while
the renderer map holds only `[0]`, so the key sets and sizes no longer
match. -/
theorem C3_create_window_orphan :
    (Engine.create_window enginePrimary (Except.ok { id := 1 })
        (fun _ => Except.error "InstanceCreationError")).2
      = Except.error "InstanceCreationError" ∧
    mapKeys (Engine.create_window enginePrimary (Except.ok { id := 1 })
        (fun _ => Except.error "InstanceCreationError")).1.windows = [1, 0] ∧
    mapKeys (Engine.create_window enginePrimary (Except.ok { id := 1 })
        (fun _ => Except.error "InstanceCreationError")).1.renderers = [0] ∧
    (Engine.create_window enginePrimary (Except.ok { id := 1 })
        (fun _ => Except.error "InstanceCreationError")).1.windows.length = 2 ∧
    (Engine.create_window enginePrimary (Except.ok { id := 1 })
        (fun _ => Except.error "InstanceCreationError")).1.renderers.length = 1 := by
  exact ⟨rfl, rfl, rfl, rfl, rfl⟩

/-- Claim C4 (code behaviour): `Engine::new` propagates a
window-creation failure as an error, and on success returns the
registry populated with the primary window designated as primary — but
a context-creation failure makes it panic (`unwrap`), which is a
distinct outcome from returning an error. -/
theorem C4_new_panics_not_errors :
    Engine.new (Except.error "WindowCreationError") (fun _ => Except.ok rendererEx)
        = NewResult.err "WindowCreationError" ∧
    Engine.new (Except.ok { id := 0 }) (fun _ => Except.error "InstanceCreationError")
        = NewResult.panicked "InstanceCreationError" ∧
    (∀ (msg1 msg2 : String), NewResult.panicked msg1 ≠ NewResult.err msg2) ∧
    Engine.new (Except.ok { id := 0 }) (fun _ => Except.ok rendererEx)
        = NewResult.ok { renderers := [(0, rendererEx)],
                         windows := [(0, { id := 0 })],
                         primary_window_id := 0 } := by
  refine ⟨rfl, rfl, ?_, rfl⟩
  intro msg1 msg2 h
  exact NewResult.noConfusion h

/-- Claim C5 (amended): successful initialization establishes key-set
equality of the two registry maps, `window_event` always preserves it,
and `create_window` preserves it when the window-creation step fails or
when renderer creation succeeds; the excluded case — renderer creation
failing after the window was inserted — breaks it, see the
counterexample. -/
theorem C5_registry_keysets_lockstep :
    (∀ (wr : Except String WinitWindow) (rr : WinitWindow → Except String Renderer)
        (e : Engine), Engine.new wr rr = NewResult.ok e → e.keySetEq = true) ∧
    (∀ (e : Engine) (wid : WindowId) (ev : WinEvent),
        e.keySetEq = true → (Engine.window_event e wid ev).1.keySetEq = true) ∧
    (∀ (e : Engine) (w : WinitWindow) (rr : WinitWindow → Except String Renderer)
        (r : Renderer), e.keySetEq = true → rr w = Except.ok r →
          (Engine.create_window e (Except.ok w) rr).1.keySetEq = true) ∧
    (∀ (e : Engine) (msg : String) (rr : WinitWindow → Except String Renderer),
        e.keySetEq = true →
          (Engine.create_window e (Except.error msg) rr).1.keySetEq = true) :=
  ⟨new_ok_keySetEq, window_event_keySetEq, create_window_ok_keySetEq,
   create_window_window_fail_keySetEq⟩

/-- Claim C5 witness: the preservation theorem applied at concrete
inputs — a close event for an absent id, and a successful window
creation. -/
theorem C5_witness :
    (Engine.window_event enginePrimary 5 WinEvent.close_requested).1.keySetEq = true ∧
    (Engine.create_window enginePrimary (Except.ok { id := 1 })
        (fun _ => Except.ok rendererEx)).1.keySetEq = true :=
  ⟨C5_registry_keysets_lockstep.2.1 enginePrimary 5 WinEvent.close_requested (by decide),
   C5_registry_keysets_lockstep.2.2.1 enginePrimary { id := 1 }
     (fun _ => Except.ok rendererEx) rendererEx (by decide) rfl⟩

/-- Claim C5 counterexample: the claim as stated is false — a
`create_window` whose renderer creation fails leaves the two maps with
different key sets. -/
theorem C5_keysets_counterexample :
    Engine.keySetEq enginePrimary = true ∧
    Engine.keySetEq (Engine.create_window enginePrimary (Except.ok { id := 1 })
        (fun _ => Except.error "DeviceCreationError")).1 = false := by
  exact ⟨by decide, by decide⟩

/-- Claim C6: `pick_physical_device` is first-fit — its result is
exactly the first enumerated device passing the suitability check,
the empty list and the all-unsuitable list both yield the
no-suitable-device error (a per-candidate `SuitabilityError` is never
propagated), and in the spec's example (suitable exactly at 1-indexed
positions 2 and 4) it selects position 2, logging the skip reason for
position 1 before the selection message. -/
theorem C6_pick_first_fit :
    (∀ (inst : VkInstance) (data : AppData),
        (Context.pick_physical_device inst data).2 =
          match inst.physical_devices.find? suitable with
          | some pd => Except.ok { data with physical_device := pd }
          | none => Except.error "Failed to find suitable physical device.") ∧
    (Context.pick_physical_device instEx6 AppData.init).2
        = Except.ok { AppData.init with physical_device := d2 } ∧
    (Context.pick_physical_device instEx6 AppData.init).1 =
      [LogEvent.warnSkip "d1" (SuitabilityError "required queue families"),
       LogEvent.infoSelected "d2"] ∧
    (Context.pick_physical_device { physical_devices := [] } AppData.init).2
        = Except.error "Failed to find suitable physical device." ∧
    (Context.pick_physical_device instAllFail AppData.init).2
        = Except.error "Failed to find suitable physical device." :=
  ⟨fun inst data => pickLoop_snd_eq_find inst data inst.physical_devices,
   rfl, rfl, rfl, rfl⟩

/-- Claim C7: `QueueFamilyIndices::get` returns the index of the first
queue family whose flags include the graphics bit (all earlier families
lack it, the indexed one has it), fails with the `SuitabilityError`
message exactly when no family qualifies, and on the example
`[transfer, graphics|transfer, compute]` returns index 1. -/
theorem C7_first_graphics_family :
    (∀ (inst : VkInstance) (data : AppData) (pd : PhysicalDevice) (i : Nat),
        QueueFamilyIndices.get inst data pd = Except.ok { graphics := i } →
          (∀ q ∈ pd.queue_families.take i, containsFlag q.queue_flags GRAPHICS = false) ∧
          ∃ q, pd.queue_families[i]? = some q ∧ containsFlag q.queue_flags GRAPHICS = true) ∧
    (∀ (inst : VkInstance) (data : AppData) (pd : PhysicalDevice),
        QueueFamilyIndices.get inst data pd
            = Except.error (SuitabilityError "required queue families") ↔
          ∀ q ∈ pd.queue_families, containsFlag q.queue_flags GRAPHICS = false) ∧
    QueueFamilyIndices.get instEx7 AppData.init pdEx7 = Except.ok { graphics := 1 } := by
  refine ⟨?_, get_eq_error_iff, rfl⟩
  intro inst data pd i h
  have hpos := get_eq_ok_position inst data pd { graphics := i } h
  obtain ⟨h1, q, hq, hpq⟩ := position_take_spec _ pd.queue_families i hpos
  exact ⟨fun x hx => h1 x hx, q, hq, hpq⟩

/-- Claim C7 witness: the theorem applied to the concrete example
device at index 1. -/
theorem C7_witness :
    (∀ q ∈ pdEx7.queue_families.take 1, containsFlag q.queue_flags GRAPHICS = false) ∧
    ∃ q, pdEx7.queue_families[1]? = some q ∧ containsFlag q.queue_flags GRAPHICS = true :=
  C7_first_graphics_family.1 instEx7 AppData.init pdEx7 1 rfl

/-- Claim C8: for every severity, message type and message text, the
debug callback logs a record holding exactly the type bitmask and
message, at the level given by the mapping error→error, warning→warn,
info→debug, otherwise trace, and returns `vk::FALSE`. -/
theorem C8_debug_callback_total (severity : Severity) (type_ : Nat) (message : String) :
    Context.debug_callback severity type_ message =
      ({ level :=
            match severity with
            | Severity.error => LogLevel.error
            | Severity.warning => LogLevel.warn
            | Severity.info => LogLevel.debug
            | Severity.verbose => LogLevel.trace,
          message_type := type_, message := message }, VK_FALSE) := by
  cases severity <;> rfl

/-- Claim C9: whenever `QueueFamilyIndices::get` succeeds, the returned
graphics index is strictly below the length of the device's
queue-family list and the family at that index has the graphics flag. -/
theorem C9_graphics_index_in_bounds (inst : VkInstance) (data : AppData)
    (pd : PhysicalDevice) (qfi : QueueFamilyIndices)
    (h : QueueFamilyIndices.get inst data pd = Except.ok qfi) :
    ∃ hlt : qfi.graphics < pd.queue_families.length,
      containsFlag (pd.queue_families.get ⟨qfi.graphics, hlt⟩).queue_flags GRAPHICS
        = true := by
  have hpos := get_eq_ok_position inst data pd qfi h
  obtain ⟨hlt, hp⟩ := position_get_spec _ pd.queue_families qfi.graphics hpos
  exact ⟨hlt, hp⟩

/-- Claim C9 witness: the theorem applied to the example device, whose
lookup succeeds with index 1. -/
theorem C9_witness :
    ∃ hlt : (1 : Nat) < pdEx7.queue_families.length,
      containsFlag (pdEx7.queue_families.get ⟨1, hlt⟩).queue_flags GRAPHICS = true :=
  C9_graphics_index_in_bounds instEx7 AppData.init pdEx7 { graphics := 1 } rfl

/-- Claim C10: a close-requested event for an id that is neither the
primary window nor a key of either map leaves the registry unchanged
and does not request termination — removal of an absent key is a
no-op. -/
theorem C10_close_absent_id_noop (e : Engine) (wid : WindowId)
    (hp : wid ≠ e.primary_window_id)
    (hw : wid ∉ mapKeys e.windows) (hr : wid ∉ mapKeys e.renderers) :
    Engine.window_event e wid WinEvent.close_requested = (e, false) := by
  have hb : (wid == e.primary_window_id) = false := beq_eq_false_iff_ne.mpr hp
  simp only [Engine.window_event]
  rw [if_neg (by simp [hb])]
  rw [mapRemove_eq_self e.windows wid hw, mapRemove_eq_self e.renderers wid hr]

/-- Claim C10 witness: the theorem applied to the primary-only registry
and the absent id 7. -/
theorem C10_witness :
    Engine.window_event enginePrimary 7 WinEvent.close_requested = (enginePrimary, false) :=
  C10_close_absent_id_noop enginePrimary 7 (by decide) (by decide) (by decide)

end VulkanRust
